import Mathlib

/-!
Shallow embedding of the VO2max calculator (`src/streamlit_app.py`).

Numbers are modelled as exact rationals (`ℚ`); the decimal literals of the
Python source (16.6, 8.87, 10.8, 0.01141, 0.435, 1.17) become the exact
decimal rationals.  Python raises `ZeroDivisionError` when a function divides
by a zero weight; that failure is modelled as `Option.none`: each calculation
function returns `none` exactly when `weight = 0`, since every one of them
divides by `weight`.  The seconds-into-final-stage input of the ramp test is
an integer in the UI, and Python's `%` on integers with a positive modulus
agrees with `Int.emod`, so it is modelled as `ℤ` with `% 60`.
-/

/-- The four values returned (as a tuple, in this order) by each calculation
function: `(power, power_to_weight, vo2max_ml_min, vo2max_ml_kg_min)`. -/
structure VO2maxResult where
  powerAtVo2maxW : ℚ
  powerToWeight : ℚ
  vo2maxMlPerMin : ℚ
  vo2maxMlPerKgPerMin : ℚ
  deriving Repr, DecidableEq

/-- `calculate_vo2max_5min(weight, power)` from the source: 5-minute maximal
effort test.  `power_to_weight = power / weight`;
`vo2max_ml_kg_min = 16.6 + 8.87 * power_to_weight`;
`vo2max_ml_min = vo2max_ml_kg_min * weight`; returns
`(power, power_to_weight, vo2max_ml_min, vo2max_ml_kg_min)`.
Division by a zero weight raises in Python, modelled as `none`. -/
def calculate_vo2max_5min (weight power : ℚ) : Option VO2maxResult :=
  if weight = 0 then none
  else
    let power_to_weight := power / weight
    let vo2max_ml_kg_min := 16.6 + 8.87 * power_to_weight
    let vo2max_ml_min := vo2max_ml_kg_min * weight
    some ⟨power, power_to_weight, vo2max_ml_min, vo2max_ml_kg_min⟩

/-- `calculate_vo2max_6min(weight, power)` from the source: 6-minute maximal
effort test, `vo2max_ml_kg_min = (power * 10.8 / weight) + 7`. -/
def calculate_vo2max_6min (weight power : ℚ) : Option VO2maxResult :=
  if weight = 0 then none
  else
    let vo2max_ml_kg_min := power * 10.8 / weight + 7
    let vo2max_ml_min := vo2max_ml_kg_min * weight
    some ⟨power, power / weight, vo2max_ml_min, vo2max_ml_kg_min⟩

/-- `calculate_vo2max_ramp(weight, final_power, time_to_exhaustion)` from
the source.  `next_to_last_power = final_power - 25`;
`seconds_in_final_stage = time_to_exhaustion % 60`;
`map_power = next_to_last_power + ((seconds_in_final_stage / 150) * 25)`
(note the divisor 150 in the source); then
`vo2max_l_min = 0.01141 * map_power + 0.435`, scaled to ml and divided by
weight. -/
def calculate_vo2max_ramp (weight final_power : ℚ) (time_to_exhaustion : ℤ) :
    Option VO2maxResult :=
  if weight = 0 then none
  else
    let next_to_last_power := final_power - 25
    let seconds_in_final_stage : ℤ := time_to_exhaustion % 60
    let map_power := next_to_last_power + ((seconds_in_final_stage : ℚ) / 150) * 25
    let vo2max_l_min := 0.01141 * map_power + 0.435
    let vo2max_ml_min := vo2max_l_min * 1000
    let vo2max_ml_kg_min := vo2max_ml_min / weight
    let vo2max_power := map_power
    some ⟨vo2max_power, vo2max_power / weight, vo2max_ml_min, vo2max_ml_kg_min⟩

/-- `calculate_vo2max_from_ftp(weight, ftp)` from the source:
`vo2max_power = ftp * 1.17`, then the 5-minute-test formula applied to that
derived power. -/
def calculate_vo2max_from_ftp (weight ftp : ℚ) : Option VO2maxResult :=
  if weight = 0 then none
  else
    let vo2max_power := ftp * 1.17
    let power_to_weight := vo2max_power / weight
    let vo2max_ml_kg_min := 16.6 + 8.87 * power_to_weight
    let vo2max_ml_min := vo2max_ml_kg_min * weight
    some ⟨vo2max_power, power_to_weight, vo2max_ml_min, vo2max_ml_kg_min⟩

/-- The static classification table `classification_data` from the source:
each row is `(Category, Male band string, Female band string)`. -/
def classification_data : List (String × String × String) :=
  [("Poor", "<35", "<30"),
   ("Fair", "35-45", "30-40"),
   ("Good", "45-55", "40-50"),
   ("Excellent", "55-65", "50-60"),
   ("Elite", ">65", ">60")]

/-- `highlight_row` from the source, as a predicate on one table row: the row
whose male band label is `maleBand` is highlighted for the computed value
`v = vo2max_ml_kg_min` exactly under the listed conditions.  Only the male
band labels are ever compared; the female column never influences the
result. -/
def highlight_row (maleBand : String) (v : ℚ) : Bool :=
  if maleBand = "<35" ∧ v < 35 then true
  else if maleBand = "35-45" ∧ 35 ≤ v ∧ v < 45 then true
  else if maleBand = "45-55" ∧ 45 ≤ v ∧ v < 55 then true
  else if maleBand = "55-65" ∧ 55 ≤ v ∧ v < 65 then true
  else if maleBand = ">65" ∧ 65 ≤ v then true
  else false

/-- The categories of the table rows that `highlight_row` highlights for a
given computed `vo2max_ml_kg_min` value. -/
def highlightedCategories (v : ℚ) : List String :=
  (classification_data.filter fun row => highlight_row row.2.1 v).map fun row => row.1

inductive Sex
  | male
  | female
  deriving Repr, DecidableEq

/-- Modelled from the spec: the sex-parametric `classify` operation of the
specification's calculation module (the code's `highlight_row` implements
only the male column).  Bands are half-open `[lo, hi)`:
male Poor < 35, Fair 35–45, Good 45–55, Excellent 55–65, Elite ≥ 65;
female Poor < 30, Fair 30–40, Good 40–50, Excellent 50–60, Elite ≥ 60. -/
def classifySpec (sex : Sex) (v : ℚ) : String :=
  match sex with
  | Sex.male =>
      if v < 35 then "Poor"
      else if v < 45 then "Fair"
      else if v < 55 then "Good"
      else if v < 65 then "Excellent"
      else "Elite"
  | Sex.female =>
      if v < 30 then "Poor"
      else if v < 40 then "Fair"
      else if v < 50 then "Good"
      else if v < 60 then "Excellent"
      else "Elite"

/-- The `vo2max_ml_kg_min` component of a calculation result (0 when the
calculation failed; all uses are under a `weight ≠ 0` hypothesis, where the
result is `some`). -/
def mlKgMin (o : Option VO2maxResult) : ℚ :=
  (o.map VO2maxResult.vo2maxMlPerKgPerMin).getD 0

/-- The `power` component of a calculation result (0 when the calculation
failed). -/
def powerAt (o : Option VO2maxResult) : ℚ :=
  (o.map VO2maxResult.powerAtVo2maxW).getD 0

/-! ### Helper lemmas: closed forms of the four calculation functions -/

theorem fiveMin_eq (w p : ℚ) (hw : w ≠ 0) :
    calculate_vo2max_5min w p =
      some ⟨p, p / w, (16.6 + 8.87 * (p / w)) * w, 16.6 + 8.87 * (p / w)⟩ := by
  simp [calculate_vo2max_5min, hw]

theorem sixMin_eq (w p : ℚ) (hw : w ≠ 0) :
    calculate_vo2max_6min w p =
      some ⟨p, p / w, (p * 10.8 / w + 7) * w, p * 10.8 / w + 7⟩ := by
  simp [calculate_vo2max_6min, hw]

theorem ramp_eq (w p : ℚ) (s : ℤ) (hw : w ≠ 0) :
    calculate_vo2max_ramp w p s =
      some ⟨p - 25 + ((s % 60 : ℤ) : ℚ) / 150 * 25,
            (p - 25 + ((s % 60 : ℤ) : ℚ) / 150 * 25) / w,
            (0.01141 * (p - 25 + ((s % 60 : ℤ) : ℚ) / 150 * 25) + 0.435) * 1000,
            (0.01141 * (p - 25 + ((s % 60 : ℤ) : ℚ) / 150 * 25) + 0.435) * 1000 / w⟩ := by
  simp [calculate_vo2max_ramp, hw]

theorem ftp_eq (w f : ℚ) (hw : w ≠ 0) :
    calculate_vo2max_from_ftp w f =
      some ⟨f * 1.17, f * 1.17 / w, (16.6 + 8.87 * (f * 1.17 / w)) * w,
            16.6 + 8.87 * (f * 1.17 / w)⟩ := by
  simp [calculate_vo2max_from_ftp, hw]

/-! ### C1 -/

/-- C1: for every `weightKg > 0` and every `avgPowerW`, the 5-minute test
returns `powerToWeight = avgPowerW / weightKg`,
`vo2maxMlPerKgPerMin = 16.6 + 8.87 * (avgPowerW / weightKg)`,
`vo2maxMlPerMin = vo2maxMlPerKgPerMin * weightKg`, and
`powerAtVo2maxW = avgPowerW`. -/
theorem fiveMinuteTest_correct (w p : ℚ) (hw : 0 < w) :
    calculate_vo2max_5min w p =
      some ⟨p, p / w, (16.6 + 8.87 * (p / w)) * w, 16.6 + 8.87 * (p / w)⟩ :=
  fiveMin_eq w p hw.ne'

/-- C1 witness: the concrete scenario `fromFiveMinuteTest(70, 300)`. -/
theorem fiveMinuteTest_correct_witness :
    calculate_vo2max_5min 70 300 =
      some ⟨300, 300 / 70, (16.6 + 8.87 * (300 / 70)) * 70, 16.6 + 8.87 * (300 / 70)⟩ :=
  fiveMinuteTest_correct 70 300 (by norm_num)

/-! ### C2 -/

/-- C2 counterexample: the claim predicts, for `fromRampTest(70, 325, 30)`,
`map = (325 - 25) + (30 / 60) * 25 = 312.5`; the code divides the seconds by
150 instead of the 60-second stage duration and returns
`powerAtVo2maxW = 300 + (30 / 150) * 25 = 305`. -/
theorem rampTest_divisor_cex :
    (calculate_vo2max_ramp 70 325 30).map VO2maxResult.powerAtVo2maxW = some 305 ∧
    (305 : ℚ) ≠ 312.5 := by
  constructor
  · rw [ramp_eq 70 325 30 (by norm_num)]
    norm_num
  · norm_num

/-- C2 amended: for every `weightKg > 0` and all inputs, `fromRampTest`
computes `nextToLastPower = finalStagePowerW - 25`, reduces the seconds
modulo 60, and sets `map = nextToLastPower + (secondsIntoFinalStage % 60 / 150) * 25`
(the divisor is the hard-coded constant 150, not the 60-second stage
duration); it returns `powerAtVo2maxW = map`,
`vo2maxMlPerMin = (0.01141 * map + 0.435) * 1000`, and
`vo2maxMlPerKgPerMin = vo2maxMlPerMin / weightKg`. -/
theorem rampTest_correct (w p : ℚ) (s : ℤ) (hw : 0 < w) :
    calculate_vo2max_ramp w p s =
      some ⟨p - 25 + ((s % 60 : ℤ) : ℚ) / 150 * 25,
            (p - 25 + ((s % 60 : ℤ) : ℚ) / 150 * 25) / w,
            (0.01141 * (p - 25 + ((s % 60 : ℤ) : ℚ) / 150 * 25) + 0.435) * 1000,
            (0.01141 * (p - 25 + ((s % 60 : ℤ) : ℚ) / 150 * 25) + 0.435) * 1000 / w⟩ :=
  ramp_eq w p s hw.ne'

/-- C2 witness: the amended formula at `fromRampTest(70, 325, 30)`. -/
theorem rampTest_correct_witness :
    calculate_vo2max_ramp 70 325 30 =
      some ⟨325 - 25 + (((30 : ℤ) % 60 : ℤ) : ℚ) / 150 * 25,
            (325 - 25 + (((30 : ℤ) % 60 : ℤ) : ℚ) / 150 * 25) / 70,
            (0.01141 * (325 - 25 + (((30 : ℤ) % 60 : ℤ) : ℚ) / 150 * 25) + 0.435) * 1000,
            (0.01141 * (325 - 25 + (((30 : ℤ) % 60 : ℤ) : ℚ) / 150 * 25) + 0.435) * 1000 / 70⟩ :=
  rampTest_correct 70 325 30 (by norm_num)

/-! ### C3 -/

/-- C3 counterexample: violated preconditions do not fail.
`fromFtp(70, 0)` (FTP ≤ 0) returns a result, `fromRampTest(70, 20, 30)`
(final stage power ≤ stage increment) returns a result, and
`fromFiveMinuteTest(-70, 300)` (weight ≤ 0 but nonzero) returns a result;
no typed `InvalidInput` error exists anywhere in the code. -/
theorem invalidInput_cex :
    (calculate_vo2max_from_ftp 70 0).isSome = true ∧
    (calculate_vo2max_ramp 70 20 30).isSome = true ∧
    (calculate_vo2max_5min (-70) 300).isSome = true := by
  refine ⟨?_, ?_, ?_⟩
  · rw [ftp_eq 70 0 (by norm_num)]; rfl
  · rw [ramp_eq 70 20 30 (by norm_num)]; rfl
  · rw [fiveMin_eq (-70) 300 (by norm_num)]; rfl

/-- C3 amended: the calculation functions perform no input validation and
raise no typed error; each of the four fails (with an untyped
division-by-zero error, after which no partial result is returned) exactly
when `weightKg = 0`, and succeeds on every other input, including
non-positive powers, non-positive FTP, and a final ramp stage power not
exceeding one stage increment. -/
theorem calculation_fails_iff_zero_weight (w p f : ℚ) (s : ℤ) :
    (calculate_vo2max_5min w p = none ↔ w = 0) ∧
    (calculate_vo2max_6min w p = none ↔ w = 0) ∧
    (calculate_vo2max_ramp w f s = none ↔ w = 0) ∧
    (calculate_vo2max_from_ftp w p = none ↔ w = 0) := by
  refine ⟨?_, ?_, ?_, ?_⟩ <;>
    · constructor
      · intro h
        by_contra hw
        simp [calculate_vo2max_5min, calculate_vo2max_6min, calculate_vo2max_ramp,
          calculate_vo2max_from_ftp, hw] at h
      · intro h
        simp [calculate_vo2max_5min, calculate_vo2max_6min, calculate_vo2max_ramp,
          calculate_vo2max_from_ftp, h]

/-! ### Classification helper -/

/-- Helper: for every value, the highlighting logic marks exactly the row of
the male-threshold band containing the value, independently of any sex. -/
theorem highlightedCategories_eq_male (v : ℚ) :
    highlightedCategories v = [classifySpec Sex.male v] := by
  rcases lt_or_le v 35 with h1 | h1
  · have n45 : ¬ (45 : ℚ) ≤ v := not_le.2 (by linarith)
    have n55 : ¬ (55 : ℚ) ≤ v := not_le.2 (by linarith)
    have n65 : ¬ (65 : ℚ) ≤ v := not_le.2 (by linarith)
    simp [highlightedCategories, classification_data, highlight_row, classifySpec,
      h1, not_le.2 h1, n45, n55, n65]
  · rcases lt_or_le v 45 with h2 | h2
    · have n55 : ¬ (55 : ℚ) ≤ v := not_le.2 (by linarith)
      have n65 : ¬ (65 : ℚ) ≤ v := not_le.2 (by linarith)
      simp [highlightedCategories, classification_data, highlight_row, classifySpec,
        not_lt.2 h1, h1, h2, not_le.2 h2, n55, n65]
    · rcases lt_or_le v 55 with h3 | h3
      · have n35 : ¬ v < 35 := not_lt.2 (by linarith)
        have n65 : ¬ (65 : ℚ) ≤ v := not_le.2 (by linarith)
        simp [highlightedCategories, classification_data, highlight_row, classifySpec,
          n35, not_lt.2 h2, h2, h3, not_le.2 h3, n65]
      · rcases lt_or_le v 65 with h4 | h4
        · have n35 : ¬ v < 35 := not_lt.2 (by linarith)
          have n45 : ¬ v < 45 := not_lt.2 (by linarith)
          simp [highlightedCategories, classification_data, highlight_row, classifySpec,
            n35, n45, not_lt.2 h3, h3, h4, not_le.2 h4]
        · have n35 : ¬ v < 35 := not_lt.2 (by linarith)
          have n45 : ¬ v < 45 := not_lt.2 (by linarith)
          have n55 : ¬ v < 55 := not_lt.2 (by linarith)
          simp [highlightedCategories, classification_data, highlight_row, classifySpec,
            n35, n45, n55, not_lt.2 h4, h4]

/-! ### C4 -/

/-- C4 counterexample: there is no sex input and the female thresholds are
never consulted: at value 32 the claimed female band is Fair (30–40), but
the code highlights the Poor row (32 < 35, the male threshold) for every
user. -/
theorem classification_ignores_sex_cex :
    highlightedCategories 32 = ["Poor"] ∧ classifySpec Sex.female 32 = "Fair" := by
  constructor
  · decide
  · decide

/-- C4 amended: the classification implemented by the highlighting logic
uses the male thresholds only (Poor < 35, Fair [35,45), Good [45,55),
Excellent [55,65), Elite ≥ 65) for every value; no sex parameter exists, the
female band strings of the static table are display-only, and the selected
category never differs by sex. -/
theorem classification_male_thresholds_only (v : ℚ) :
    highlightedCategories v = [classifySpec Sex.male v] :=
  highlightedCategories_eq_male v

/-! ### C7 -/

/-- C7 counterexample: the female half of the claim fails on the code: at
value 62 the claimed female band is Elite (≥ 60), but the code highlights
the Excellent row (55 ≤ 62 < 65, the male bands) regardless of sex. -/
theorem classification_partition_cex :
    highlightedCategories 62 = ["Excellent"] ∧ classifySpec Sex.female 62 = "Elite" := by
  constructor
  · decide
  · decide

/-- C7 amended: the one classification the code implements (the
male-threshold bands) partitions the real line: every value is assigned
exactly one category, bands are contiguous, non-overlapping,
inclusive-low/exclusive-high with an unbounded top band; in particular
35 ↦ Fair, 34.999 ↦ Poor and 65 ↦ Elite.  No female-threshold
classification exists in the code. -/
theorem classification_partitions (v : ℚ) :
    (highlightedCategories v).length = 1 ∧
    highlightedCategories 35 = ["Fair"] ∧
    highlightedCategories (34.999 : ℚ) = ["Poor"] ∧
    highlightedCategories 65 = ["Elite"] := by
  refine ⟨?_, by decide, ?_, by decide⟩
  · rw [highlightedCategories_eq_male v]
    rfl
  · rw [highlightedCategories_eq_male (34.999 : ℚ)]
    norm_num [classifySpec]

/-! ### C5 -/

/-- C5: for every result returned by any of the four calculation functions
with `weightKg > 0`, the invariant
`vo2maxMlPerMin = vo2maxMlPerKgPerMin * weightKg` holds (exactly over the
rational embedding, hence within any relative tolerance). -/
theorem vo2max_invariant (w p f : ℚ) (s : ℤ) (hw : 0 < w) :
    (calculate_vo2max_5min w p).map VO2maxResult.vo2maxMlPerMin =
      (calculate_vo2max_5min w p).map (fun r => r.vo2maxMlPerKgPerMin * w) ∧
    (calculate_vo2max_6min w p).map VO2maxResult.vo2maxMlPerMin =
      (calculate_vo2max_6min w p).map (fun r => r.vo2maxMlPerKgPerMin * w) ∧
    (calculate_vo2max_ramp w f s).map VO2maxResult.vo2maxMlPerMin =
      (calculate_vo2max_ramp w f s).map (fun r => r.vo2maxMlPerKgPerMin * w) ∧
    (calculate_vo2max_from_ftp w p).map VO2maxResult.vo2maxMlPerMin =
      (calculate_vo2max_from_ftp w p).map (fun r => r.vo2maxMlPerKgPerMin * w) := by
  rw [fiveMin_eq w p hw.ne', sixMin_eq w p hw.ne', ramp_eq w f s hw.ne',
    ftp_eq w p hw.ne']
  refine ⟨rfl, rfl, ?_, rfl⟩
  simp only [Option.map, Option.some.injEq]
  rw [div_mul_cancel₀ _ hw.ne']

/-- C5 witness: the invariant at weight 70 with the concrete powers 300
(5-min, 6-min, FTP) and ramp input (325 W, 30 s). -/
theorem vo2max_invariant_witness :
    (calculate_vo2max_5min 70 300).map VO2maxResult.vo2maxMlPerMin =
      (calculate_vo2max_5min 70 300).map (fun r => r.vo2maxMlPerKgPerMin * 70) ∧
    (calculate_vo2max_6min 70 300).map VO2maxResult.vo2maxMlPerMin =
      (calculate_vo2max_6min 70 300).map (fun r => r.vo2maxMlPerKgPerMin * 70) ∧
    (calculate_vo2max_ramp 70 325 30).map VO2maxResult.vo2maxMlPerMin =
      (calculate_vo2max_ramp 70 325 30).map (fun r => r.vo2maxMlPerKgPerMin * 70) ∧
    (calculate_vo2max_from_ftp 70 300).map VO2maxResult.vo2maxMlPerMin =
      (calculate_vo2max_from_ftp 70 300).map (fun r => r.vo2maxMlPerKgPerMin * 70) :=
  vo2max_invariant 70 300 325 30 (by norm_num)

/-! ### C6 -/

/-- C6: for every `weightKg > 0` and `ftpW > 0`, `fromFtp` returns
`powerAtVo2maxW = ftpW * 1.17` and is extensionally the 5-minute test run at
the derived power `ftpW * 1.17`: every field agrees. -/
theorem ftp_refines_fiveMinuteTest (w f : ℚ) (hw : 0 < w) (hf : 0 < f) :
    (calculate_vo2max_from_ftp w f).map VO2maxResult.powerAtVo2maxW = some (f * 1.17) ∧
    calculate_vo2max_from_ftp w f = calculate_vo2max_5min w (f * 1.17) := by
  rw [ftp_eq w f hw.ne', fiveMin_eq w (f * 1.17) hw.ne']
  exact ⟨rfl, rfl⟩

/-- C6 witness: the concrete scenario `fromFtp(70, 250)`, whose derived power
is `250 * 1.17 = 292.5`. -/
theorem ftp_refines_fiveMinuteTest_witness :
    (calculate_vo2max_from_ftp 70 250).map VO2maxResult.powerAtVo2maxW =
      some (250 * 1.17) ∧
    calculate_vo2max_from_ftp 70 250 = calculate_vo2max_5min 70 (250 * 1.17) :=
  ftp_refines_fiveMinuteTest 70 250 (by norm_num) (by norm_num)

/-! ### C8 -/

/-- C8: for fixed `weightKg > 0` and powers `0 < p1 < p2` (any fixed seconds
for the ramp test), each of the four calculation functions returns a
strictly larger `vo2maxMlPerKgPerMin` at `p2` than at `p1`. -/
theorem vo2max_monotone_in_power (w p1 p2 : ℚ) (s : ℤ) (hw : 0 < w)
    (hp1 : 0 < p1) (hp : p1 < p2) :
    mlKgMin (calculate_vo2max_5min w p1) < mlKgMin (calculate_vo2max_5min w p2) ∧
    mlKgMin (calculate_vo2max_6min w p1) < mlKgMin (calculate_vo2max_6min w p2) ∧
    mlKgMin (calculate_vo2max_ramp w p1 s) < mlKgMin (calculate_vo2max_ramp w p2 s) ∧
    mlKgMin (calculate_vo2max_from_ftp w p1) < mlKgMin (calculate_vo2max_from_ftp w p2) := by
  rw [mlKgMin, mlKgMin, mlKgMin, mlKgMin, mlKgMin, mlKgMin, mlKgMin, mlKgMin,
    fiveMin_eq w p1 hw.ne', fiveMin_eq w p2 hw.ne', sixMin_eq w p1 hw.ne',
    sixMin_eq w p2 hw.ne', ramp_eq w p1 s hw.ne', ramp_eq w p2 s hw.ne',
    ftp_eq w p1 hw.ne', ftp_eq w p2 hw.ne']
  simp only [Option.map, Option.getD]
  exact ⟨by gcongr, by gcongr, by gcongr, by gcongr⟩

/-- C8 witness: monotonicity at weight 70 between powers 300 and 310 with
30 seconds into the final ramp stage. -/
theorem vo2max_monotone_in_power_witness :
    mlKgMin (calculate_vo2max_5min 70 300) < mlKgMin (calculate_vo2max_5min 70 310) ∧
    mlKgMin (calculate_vo2max_6min 70 300) < mlKgMin (calculate_vo2max_6min 70 310) ∧
    mlKgMin (calculate_vo2max_ramp 70 300 30) < mlKgMin (calculate_vo2max_ramp 70 310 30) ∧
    mlKgMin (calculate_vo2max_from_ftp 70 300) < mlKgMin (calculate_vo2max_from_ftp 70 310) :=
  vo2max_monotone_in_power 70 300 310 30 (by norm_num) (by norm_num) (by norm_num)

/-! ### C9 -/

/-- C9: for every `weightKg > 0` and every `finalStagePowerW`, a full
60-second final stage gives exactly the result of 0 seconds: the seconds
input is reduced modulo 60 before use, so `fromRampTest(w, p, 60)` equals
`fromRampTest(w, p, 0)` in every field. -/
theorem ramp_sixty_seconds_equals_zero (w p : ℚ) (hw : 0 < w) :
    calculate_vo2max_ramp w p 60 = calculate_vo2max_ramp w p 0 := by
  rw [ramp_eq w p 60 hw.ne', ramp_eq w p 0 hw.ne']
  norm_num

/-- C9 witness: the full-stage collapse at weight 70 and final stage
325 W. -/
theorem ramp_sixty_seconds_equals_zero_witness :
    calculate_vo2max_ramp 70 325 60 = calculate_vo2max_ramp 70 325 0 :=
  ramp_sixty_seconds_equals_zero 70 325 (by norm_num)

/-! ### C10 -/

/-- C10: for every `weightKg > 0`, every `finalStagePowerW`, and every
`secondsIntoFinalStage` in [0,60], the returned `powerAtVo2maxW` is strictly
below `finalStagePowerW`: the fraction added to `nextToLastPower` is at most
`(59/150) * 25 < 25` W. -/
theorem ramp_power_below_final_stage (w p : ℚ) (s : ℤ) (hw : 0 < w)
    (h0 : 0 ≤ s) (h60 : s ≤ 60) :
    powerAt (calculate_vo2max_ramp w p s) < p := by
  rw [powerAt, ramp_eq w p s hw.ne']
  simp only [Option.map, Option.getD]
  have hmod : s % 60 < 60 := Int.emod_lt_of_pos s (by norm_num)
  have hq : ((s % 60 : ℤ) : ℚ) < 60 := by exact_mod_cast hmod
  linarith

/-- C10 witness: at `fromRampTest(70, 325, 30)` the returned power
(305 W) is below the final stage power 325 W. -/
theorem ramp_power_below_final_stage_witness :
    powerAt (calculate_vo2max_ramp 70 325 30) < 325 :=
  ramp_power_below_final_stage 70 325 30 (by norm_num) (by norm_num) (by norm_num)
